import Mathlib

/-!
Verification of the hierarchical lazy-query engine of `awmrandr`.

The repository has two Rust source files, `src/awesome.rs` (the library
proxy model) and `src/main.rs` (the entry point, containing a copy of the
same proxy model plus an extra `Unknown` error variant).  Both expose a
object tree of a remote window manager (screens / tags / clients) through a
single remote-evaluation call.  We embed both copies shallowly:

* the DBus channel is an uninterpreted function
  `chan : String → Except ZbusError String` standing for the transport;
  the `dbus_proxy`-generated `eval` method converts a transport failure
  into `EvalError.DBusConnectionError` via the `#[from]` conversion;
* the Rust function `str::parse::<u32>()` is embedded as `parseU32`, faithful to
  `core::num::from_str_radix` at radix 10 for an unsigned type: empty
  input gives `Empty`, a lone sign gives `InvalidDigit`, a leading `-`
  on an unsigned type gives `InvalidDigit`, any non-ASCII-digit gives
  `InvalidDigit`, and exceeding `u32::MAX` gives `PosOverflow`;
* each accessor of the proxy model is a Lean function on the node
  structures, synthesizing exactly the expression strings of the
  `format!` calls in the source.
-/

/-- The error kinds of `core::num::ParseIntError` reachable when parsing
a `u32` at radix 10. -/
inductive IntErrorKind where
  | empty
  | invalidDigit
  | posOverflow
  deriving DecidableEq, Repr

/-- Model of `std::num::ParseIntError`. -/
structure ParseIntError where
  kind : IntErrorKind
  deriving DecidableEq, Repr

/-- Model of `zbus::Error`: an opaque transport-failure value. -/
structure ZbusError where
  msg : String
  deriving DecidableEq, Repr

/-- Rust `char::to_digit(10)`: `some d` exactly for the ASCII digits. -/
def charToDigit (c : Char) : Option Nat :=
  if 48 ≤ c.toNat ∧ c.toNat ≤ 57 then some (c.toNat - 48) else none

/-- The digit-accumulation loop of `u32::from_str_radix`: multiply the
accumulator by 10 and add each digit, failing with `PosOverflow` as soon
as the accumulator would exceed `u32::MAX = 4294967295`, and with
`InvalidDigit` on the first non-digit character. -/
def parseDigits : List Char → Nat → Except ParseIntError Nat
  | [], acc => .ok acc
  | c :: cs, acc =>
    match charToDigit c with
    | none => .error ⟨.invalidDigit⟩
    | some d =>
      if acc * 10 + d < 4294967296 then parseDigits cs (acc * 10 + d)
      else .error ⟨.posOverflow⟩

/-- Sign handling of `u32::from_str_radix` on the character list of the
input: an empty input is `Empty`; a leading `+` is stripped (a lone `+`
is `InvalidDigit`); a leading `-` on an unsigned type is `InvalidDigit`;
otherwise the digit loop runs on the whole remaining input. -/
def parseU32Chars : List Char → Except ParseIntError Nat
  | [] => .error ⟨.empty⟩
  | c :: rest =>
    if c = '+' then
      match rest with
      | [] => .error ⟨.invalidDigit⟩
      | r :: rs => parseDigits (r :: rs) 0
    else if c = '-' then .error ⟨.invalidDigit⟩
    else parseDigits (c :: rest) 0

/-- Rust `"...".parse::<u32>()` (`u32::from_str_radix(src, 10)`). -/
def parseU32 (s : String) : Except ParseIntError Nat :=
  parseU32Chars s.data

/-- The Rust idiom `let s = r?; s.parse::<u32>().map_err(mkErr)` shared
by every numeric accessor: propagate an error of `r` unchanged, parse a
successful reply as `u32`, wrap a parse failure with `mkErr`. -/
def parseCountWith {ε : Type} (mkErr : ParseIntError → ε) (r : Except ε String) : Except ε Nat :=
  match r with
  | .error e => .error e
  | .ok s =>
    match parseU32 s with
    | .ok n => .ok n
    | .error e => .error (mkErr e)

namespace awesome

/-- `EvalError` of `src/awesome.rs`: two variants, a parse failure
carrying the `ParseIntError` and a DBus transport failure carrying the
`zbus::Error`. -/
inductive EvalError where
  | CountParseError (e : ParseIntError)
  | DBusConnectionError (e : ZbusError)
  deriving DecidableEq, Repr

/-- The root node `Awesome`: holds the DBus proxy, embedded as the
transport function of the remote evaluation channel. -/
structure Awesome where
  chan : String → Except ZbusError String

/-- `AwesomeScreen`: a 0-based index and a back-reference to the root,
captured by value. -/
structure AwesomeScreen where
  index : Nat
  inst : Awesome

/-- `AwesomeTag`: a 0-based index and a back-reference to its screen. -/
structure AwesomeTag where
  index : Nat
  screen : AwesomeScreen

/-- `AwesomeClient`: a stored index (1-based at creation, see
`get_clients`) and a back-reference to its tag. -/
structure AwesomeClient where
  index : Nat
  tag : AwesomeTag

/-- The `dbus_proxy`-generated `CommanderProxy::eval`: one transport
round trip; a `zbus::Error` is converted into
`EvalError::DBusConnectionError` by the derived `#[from]` conversion. -/
def Awesome.eval (a : Awesome) (code : String) : Except EvalError String :=
  match a.chan code with
  | .ok reply => .ok reply
  | .error e => .error (.DBusConnectionError e)

/-- `Awesome::execute`: wraps the expression in the fixed template
`return tostring(..)` and sends it through the proxy. -/
def Awesome.execute (a : Awesome) (code : String) : Except EvalError String :=
  a.eval ("return tostring(" ++ code ++ ")")

/-- `Awesome::get_screen_count`: evaluate `screen:count()` and parse the
reply as `u32`, mapping a parse failure to `CountParseError`. -/
def Awesome.get_screen_count (a : Awesome) : Except EvalError Nat :=
  parseCountWith .CountParseError (a.execute "screen:count()")

/-- `Awesome::get_screens`: query the count, then push one screen per
`i in 0..screen_count` with `index = i`. -/
def Awesome.get_screens (a : Awesome) : Except EvalError (List AwesomeScreen) :=
  match a.get_screen_count with
  | .error e => .error e
  | .ok screen_count =>
    .ok ((List.range screen_count).map (fun i => { index := i, inst := a }))

/-- `AwesomeScreen::get_tag_count`: evaluate `#screen[index+1].tags` and
parse the reply as `u32`. -/
def AwesomeScreen.get_tag_count (s : AwesomeScreen) : Except EvalError Nat :=
  parseCountWith .CountParseError
    (s.inst.execute ("#screen[" ++ toString (s.index + 1) ++ "].tags"))

/-- `AwesomeScreen::get_tags`: query the count, then push one tag per
`i in 0..tag_count` with `index = i`. -/
def AwesomeScreen.get_tags (s : AwesomeScreen) : Except EvalError (List AwesomeTag) :=
  match s.get_tag_count with
  | .error e => .error e
  | .ok tag_count =>
    .ok ((List.range tag_count).map (fun i => { index := i, screen := s }))

/-- `AwesomeTag::get_name`: evaluate
`screen[s.index+1].tags[t.index+1].name` and return the reply text
unchanged (the source does `let tag_name = ...?; Ok(tag_name)`). -/
def AwesomeTag.get_name (t : AwesomeTag) : Except EvalError String :=
  t.screen.inst.execute
    ("screen[" ++ toString (t.screen.index + 1) ++ "].tags[" ++
      toString (t.index + 1) ++ "].name")

/-- `AwesomeTag::get_clients`: evaluate
`#screen[s.index+1].tags[t.index+1]:clients()`, parse the count, then
push one client per `i in 0..client_count` with `index = i + 1`. -/
def AwesomeTag.get_clients (t : AwesomeTag) : Except EvalError (List AwesomeClient) :=
  match parseCountWith .CountParseError
      (t.screen.inst.execute
        ("#screen[" ++ toString (t.screen.index + 1) ++ "].tags[" ++
          toString (t.index + 1) ++ "]:clients()")) with
  | .error e => .error e
  | .ok client_count =>
    .ok ((List.range client_count).map (fun i => { index := i + 1, tag := t }))

/-- `AwesomeClient::get_name`: evaluate
`screen[..].tags[..]:clients()[index].name` — the client index is used
unmodified — and return the reply text unchanged. -/
def AwesomeClient.get_name (c : AwesomeClient) : Except EvalError String :=
  c.tag.screen.inst.execute
    ("screen[" ++ toString (c.tag.screen.index + 1) ++ "].tags[" ++
      toString (c.tag.index + 1) ++ "]:clients()[" ++
      toString c.index ++ "].name")

/-- `AwesomeClient::get_x_window_id`: evaluate
`screen[..].tags[..]:clients()[index].window` and parse the reply as
`u32`, mapping a parse failure to `CountParseError`. -/
def AwesomeClient.get_x_window_id (c : AwesomeClient) : Except EvalError Nat :=
  parseCountWith .CountParseError
    (c.tag.screen.inst.execute
      ("screen[" ++ toString (c.tag.screen.index + 1) ++ "].tags[" ++
        toString (c.tag.index + 1) ++ "]:clients()[" ++
        toString c.index ++ "].window"))

/-- `AwesomeClient::get_class`: evaluate
`screen[..].tags[..]:clients()[index].class` and return the reply text
unchanged. -/
def AwesomeClient.get_class (c : AwesomeClient) : Except EvalError String :=
  c.tag.screen.inst.execute
    ("screen[" ++ toString (c.tag.screen.index + 1) ++ "].tags[" ++
      toString (c.tag.index + 1) ++ "]:clients()[" ++
      toString c.index ++ "].class")

end awesome

namespace mainmod

/-- `EvalError` of `src/main.rs`: the same two variants as the library
copy plus an extra `Unknown` variant. -/
inductive EvalError where
  | CountParseError (e : ParseIntError)
  | DBusConnectionError (e : ZbusError)
  | Unknown
  deriving DecidableEq, Repr

/-- The root node `Awesome` of `src/main.rs`. -/
structure Awesome where
  chan : String → Except ZbusError String

/-- `AwesomeScreen` of `src/main.rs`. -/
structure AwesomeScreen where
  index : Nat
  inst : Awesome

/-- `AwesomeTag` of `src/main.rs`. -/
structure AwesomeTag where
  index : Nat
  screen : AwesomeScreen

/-- `AwesomeClient` of `src/main.rs`. -/
structure AwesomeClient where
  index : Nat
  tag : AwesomeTag

/-- The `dbus_proxy`-generated `CommanderProxy::eval` of `src/main.rs`. -/
def Awesome.eval (a : Awesome) (code : String) : Except EvalError String :=
  match a.chan code with
  | .ok reply => .ok reply
  | .error e => .error (.DBusConnectionError e)

/-- `Awesome::execute` of `src/main.rs`. -/
def Awesome.execute (a : Awesome) (code : String) : Except EvalError String :=
  a.eval ("return tostring(" ++ code ++ ")")

/-- `Awesome::get_screen_count` of `src/main.rs`. -/
def Awesome.get_screen_count (a : Awesome) : Except EvalError Nat :=
  parseCountWith .CountParseError (a.execute "screen:count()")

/-- `Awesome::get_screens` of `src/main.rs`. -/
def Awesome.get_screens (a : Awesome) : Except EvalError (List AwesomeScreen) :=
  match a.get_screen_count with
  | .error e => .error e
  | .ok screen_count =>
    .ok ((List.range screen_count).map (fun i => { index := i, inst := a }))

/-- `AwesomeScreen::get_tag_count` of `src/main.rs`. -/
def AwesomeScreen.get_tag_count (s : AwesomeScreen) : Except EvalError Nat :=
  parseCountWith .CountParseError
    (s.inst.execute ("#screen[" ++ toString (s.index + 1) ++ "].tags"))

/-- `AwesomeScreen::get_tags` of `src/main.rs`. -/
def AwesomeScreen.get_tags (s : AwesomeScreen) : Except EvalError (List AwesomeTag) :=
  match s.get_tag_count with
  | .error e => .error e
  | .ok tag_count =>
    .ok ((List.range tag_count).map (fun i => { index := i, screen := s }))

/-- `AwesomeTag::get_name` of `src/main.rs`. -/
def AwesomeTag.get_name (t : AwesomeTag) : Except EvalError String :=
  t.screen.inst.execute
    ("screen[" ++ toString (t.screen.index + 1) ++ "].tags[" ++
      toString (t.index + 1) ++ "].name")

/-- `AwesomeTag::get_clients` of `src/main.rs`. -/
def AwesomeTag.get_clients (t : AwesomeTag) : Except EvalError (List AwesomeClient) :=
  match parseCountWith .CountParseError
      (t.screen.inst.execute
        ("#screen[" ++ toString (t.screen.index + 1) ++ "].tags[" ++
          toString (t.index + 1) ++ "]:clients()")) with
  | .error e => .error e
  | .ok client_count =>
    .ok ((List.range client_count).map (fun i => { index := i + 1, tag := t }))

/-- `AwesomeClient::get_name` of `src/main.rs`. -/
def AwesomeClient.get_name (c : AwesomeClient) : Except EvalError String :=
  c.tag.screen.inst.execute
    ("screen[" ++ toString (c.tag.screen.index + 1) ++ "].tags[" ++
      toString (c.tag.index + 1) ++ "]:clients()[" ++
      toString c.index ++ "].name")

/-- `AwesomeClient::get_x_window_id` of `src/main.rs`. -/
def AwesomeClient.get_x_window_id (c : AwesomeClient) : Except EvalError Nat :=
  parseCountWith .CountParseError
    (c.tag.screen.inst.execute
      ("screen[" ++ toString (c.tag.screen.index + 1) ++ "].tags[" ++
        toString (c.tag.index + 1) ++ "]:clients()[" ++
        toString c.index ++ "].window"))

/-- `AwesomeClient::get_class` of `src/main.rs`. -/
def AwesomeClient.get_class (c : AwesomeClient) : Except EvalError String :=
  c.tag.screen.inst.execute
    ("screen[" ++ toString (c.tag.screen.index + 1) ++ "].tags[" ++
      toString (c.tag.index + 1) ++ "]:clients()[" ++
      toString c.index ++ "].class")

end mainmod

/-- Map a library error onto the entry-point error type, variant by
corresponding variant. -/
def trErr : awesome.EvalError → mainmod.EvalError
  | .CountParseError e => .CountParseError e
  | .DBusConnectionError e => .DBusConnectionError e

/-- Map a library result onto an entry-point result: translate the error
and apply `f` to the value. -/
def trRes (f : α → β) : Except awesome.EvalError α → Except mainmod.EvalError β
  | .ok v => .ok (f v)
  | .error e => .error (trErr e)

/-- Node translations from the library model to the entry-point model.
Every entry-point node is in the image of these maps (by structure
eta-expansion), so stating the equivalence over library nodes covers all
entry-point nodes. -/
def trAwesome (a : awesome.Awesome) : mainmod.Awesome :=
  { chan := a.chan }

/-- Screen translation, see `trAwesome`. -/
def trScreen (s : awesome.AwesomeScreen) : mainmod.AwesomeScreen :=
  { index := s.index, inst := trAwesome s.inst }

/-- Tag translation, see `trAwesome`. -/
def trTag (t : awesome.AwesomeTag) : mainmod.AwesomeTag :=
  { index := t.index, screen := trScreen t.screen }

/-- Client translation, see `trAwesome`. -/
def trClient (c : awesome.AwesomeClient) : mainmod.AwesomeClient :=
  { index := c.index, tag := trTag c.tag }

/-- The number denoted by a digit string, accumulated left to right on
top of `acc` — the mathematical value computed by `parseDigits` when no
overflow occurs. -/
def digitsValFrom (acc : Nat) : List Char → Nat
  | [] => acc
  | c :: cs => digitsValFrom (acc * 10 + (c.toNat - 48)) cs

/-- The number denoted by a digit string. -/
def digitsVal (l : List Char) : Nat := digitsValFrom 0 l

/-- Observation of a children enumeration up to the index of each child:
errors pass through, a successful list is reduced to its index list.
Children embed their parent by value, so this is the right notion for
comparing enumerations made through different channel values. -/
def idxView {α : Type} (f : α → Nat) :
    Except awesome.EvalError (List α) → Except awesome.EvalError (List Nat)
  | .error e => .error e
  | .ok l => .ok (l.map f)

theorem digitsValFrom_le (l : List Char) : ∀ acc : Nat, acc ≤ digitsValFrom acc l := by
  induction l with
  | nil => intro acc; exact Nat.le_refl acc
  | cons c cs ih =>
    intro acc
    have h1 : acc ≤ acc * 10 + (c.toNat - 48) := by omega
    exact Nat.le_trans h1 (ih (acc * 10 + (c.toNat - 48)))

/-- Characterization of the digit-accumulation loop on all-digit input:
it returns the denoted value when that value fits in a `u32`, and fails
with `PosOverflow` otherwise. -/
theorem parseDigits_eq (l : List Char) :
    ∀ acc : Nat, acc < 4294967296 →
    (∀ c ∈ l, 48 ≤ c.toNat ∧ c.toNat ≤ 57) →
    parseDigits l acc =
      if digitsValFrom acc l < 4294967296 then .ok (digitsValFrom acc l)
      else .error ⟨.posOverflow⟩ := by
  induction l with
  | nil =>
    intro acc hacc _
    rw [if_pos (show digitsValFrom acc [] < 4294967296 from hacc)]
    rfl
  | cons c cs ih =>
    intro acc hacc hdig
    have hc := hdig c (List.mem_cons_self c cs)
    have hcd : charToDigit c = some (c.toNat - 48) := by
      unfold charToDigit
      rw [if_pos hc]
    rw [show digitsValFrom acc (c :: cs) = digitsValFrom (acc * 10 + (c.toNat - 48)) cs from rfl]
    simp only [parseDigits, hcd]
    by_cases h : acc * 10 + (c.toNat - 48) < 4294967296
    · rw [if_pos h]
      exact ih (acc * 10 + (c.toNat - 48)) h
        (fun x hx => hdig x (List.mem_cons_of_mem c hx))
    · rw [if_neg h]
      have hge : 4294967296 ≤ digitsValFrom (acc * 10 + (c.toNat - 48)) cs :=
        Nat.le_trans (by omega) (digitsValFrom_le cs (acc * 10 + (c.toNat - 48)))
      rw [if_neg (by omega)]

/-- On a nonempty all-digit string denoting a value above `u32::MAX`,
`parseU32` fails with `PosOverflow`. -/
theorem parseU32_overflow (s : String) (h1 : s.data ≠ [])
    (h2 : ∀ c ∈ s.data, 48 ≤ c.toNat ∧ c.toNat ≤ 57)
    (h3 : 4294967295 < digitsVal s.data) :
    parseU32 s = .error ⟨.posOverflow⟩ := by
  unfold parseU32
  cases hd : s.data with
  | nil => exact absurd hd h1
  | cons c rest =>
    rw [hd] at h2 h3
    have hc := h2 c (List.mem_cons_self c rest)
    have hplus : ¬ c = '+' := by
      intro h
      rw [h] at hc
      exact absurd hc (by decide)
    have hminus : ¬ c = '-' := by
      intro h
      rw [h] at hc
      exact absurd hc (by decide)
    simp only [parseU32Chars]
    rw [if_neg hplus, if_neg hminus]
    rw [parseDigits_eq (c :: rest) 0 (by omega) h2]
    rw [if_neg (by unfold digitsVal at h3; omega)]

/-- On a string whose first character is `-`, `parseU32` fails with
`InvalidDigit` (negative numbers never wrap for an unsigned target). -/
theorem parseU32_neg (u : String) (l : List Char) (hu : u.data = '-' :: l) :
    parseU32 u = .error ⟨.invalidDigit⟩ := by
  unfold parseU32
  rw [hu]
  simp [parseU32Chars]

/-- If the screen-count query decodes to `n`, `get_screens` materializes
exactly the screens with indices `0 .. n-1`. -/
theorem get_screens_of_count (a : awesome.Awesome) (n : Nat)
    (h : a.get_screen_count = .ok n) :
    a.get_screens = .ok ((List.range n).map (fun i => { index := i, inst := a })) := by
  unfold awesome.Awesome.get_screens
  rw [h]

/-- If the tag-count query decodes to `n`, `get_tags` materializes
exactly the tags with indices `0 .. n-1`. -/
theorem get_tags_of_count (s : awesome.AwesomeScreen) (n : Nat)
    (h : s.get_tag_count = .ok n) :
    s.get_tags = .ok ((List.range n).map (fun i => { index := i, screen := s })) := by
  unfold awesome.AwesomeScreen.get_tags
  rw [h]

/-- If the client-count query decodes to `n`, `get_clients` materializes
exactly the clients with indices `1 .. n`. -/
theorem get_clients_of_count (t : awesome.AwesomeTag) (n : Nat)
    (h : parseCountWith awesome.EvalError.CountParseError
      (t.screen.inst.execute
        ("#screen[" ++ toString (t.screen.index + 1) ++ "].tags[" ++
          toString (t.index + 1) ++ "]:clients()")) = .ok n) :
    t.get_clients = .ok ((List.range n).map (fun i => { index := i + 1, tag := t })) := by
  unfold awesome.AwesomeTag.get_clients
  rw [h]

theorem screens_map_index (a : awesome.Awesome) (n : Nat) :
    ((List.range n).map
      (fun i => ({ index := i, inst := a } : awesome.AwesomeScreen))).map
        (fun x => x.index) = List.range n := by
  rw [List.map_map,
    show ((fun (x : awesome.AwesomeScreen) => x.index) ∘
      fun i => ({ index := i, inst := a } : awesome.AwesomeScreen)) = id from rfl,
    List.map_id]

theorem tags_map_index (s : awesome.AwesomeScreen) (n : Nat) :
    ((List.range n).map
      (fun i => ({ index := i, screen := s } : awesome.AwesomeTag))).map
        (fun x => x.index) = List.range n := by
  rw [List.map_map,
    show ((fun (x : awesome.AwesomeTag) => x.index) ∘
      fun i => ({ index := i, screen := s } : awesome.AwesomeTag)) = id from rfl,
    List.map_id]

theorem clients_map_index (t : awesome.AwesomeTag) (n : Nat) :
    ((List.range n).map
      (fun i => ({ index := i + 1, tag := t } : awesome.AwesomeClient))).map
        (fun x => x.index) = (List.range n).map (fun i => i + 1) := by
  rw [List.map_map,
    show ((fun (x : awesome.AwesomeClient) => x.index) ∘
      fun i => ({ index := i + 1, tag := t } : awesome.AwesomeClient)) =
      (fun i => i + 1) from rfl]

/-- Claim C2: on every container node whose remote count query decodes
to `N`, the children enumeration returns exactly `N` child nodes; their
index lists are `0 .. N-1` for screens and tags, and `1 .. N` for
clients — in particular they are strictly ascending from the
type-appropriate base. -/
theorem claim_c2 (a : awesome.Awesome) (s : awesome.AwesomeScreen)
    (t : awesome.AwesomeTag) (n m p : Nat)
    (h1 : a.get_screen_count = .ok n)
    (h2 : s.get_tag_count = .ok m)
    (h3 : parseCountWith awesome.EvalError.CountParseError
      (t.screen.inst.execute
        ("#screen[" ++ toString (t.screen.index + 1) ++ "].tags[" ++
          toString (t.index + 1) ++ "]:clients()")) = .ok p) :
    (∃ l, a.get_screens = .ok l ∧ l.length = n ∧
      l.map (fun x => x.index) = List.range n)
    ∧ (∃ l, s.get_tags = .ok l ∧ l.length = m ∧
      l.map (fun x => x.index) = List.range m)
    ∧ (∃ l, t.get_clients = .ok l ∧ l.length = p ∧
      l.map (fun x => x.index) = (List.range p).map (fun i => i + 1)) := by
  refine ⟨⟨_, get_screens_of_count a n h1, ?_, screens_map_index a n⟩,
    ⟨_, get_tags_of_count s m h2, ?_, tags_map_index s m⟩,
    ⟨_, get_clients_of_count t p h3, ?_, clients_map_index t p⟩⟩ <;>
  simp

/-- Claim C2 witness: a channel that answers `"2"` to every query gives
two screens with indices `[0, 1]`, two tags with indices `[0, 1]`, and
two clients with indices `[1, 2]`. -/
theorem claim_c2_witness :
    (∃ l, (awesome.Awesome.mk (fun _ => .ok "2")).get_screens = .ok l ∧
      l.length = 2 ∧ l.map (fun x => x.index) = List.range 2)
    ∧ (∃ l, (awesome.AwesomeScreen.mk 0
        (awesome.Awesome.mk (fun _ => .ok "2"))).get_tags = .ok l ∧
      l.length = 2 ∧ l.map (fun x => x.index) = List.range 2)
    ∧ (∃ l, (awesome.AwesomeTag.mk 0 (awesome.AwesomeScreen.mk 0
        (awesome.Awesome.mk (fun _ => .ok "2")))).get_clients = .ok l ∧
      l.length = 2 ∧ l.map (fun x => x.index) = (List.range 2).map (fun i => i + 1)) :=
  claim_c2 (awesome.Awesome.mk (fun _ => .ok "2"))
    (awesome.AwesomeScreen.mk 0 (awesome.Awesome.mk (fun _ => .ok "2")))
    (awesome.AwesomeTag.mk 0 (awesome.AwesomeScreen.mk 0
      (awesome.Awesome.mk (fun _ => .ok "2"))))
    2 2 2 rfl rfl rfl

/-- Claim C8: when a count query succeeds and decodes to 0, the children
enumeration returns `Ok` with the empty list on every container level —
it neither errors nor constructs any child. -/
theorem claim_c8 (a : awesome.Awesome) (s : awesome.AwesomeScreen)
    (t : awesome.AwesomeTag)
    (h1 : a.get_screen_count = .ok 0)
    (h2 : s.get_tag_count = .ok 0)
    (h3 : parseCountWith awesome.EvalError.CountParseError
      (t.screen.inst.execute
        ("#screen[" ++ toString (t.screen.index + 1) ++ "].tags[" ++
          toString (t.index + 1) ++ "]:clients()")) = .ok 0) :
    a.get_screens = .ok [] ∧ s.get_tags = .ok [] ∧ t.get_clients = .ok [] := by
  refine ⟨?_, ?_, ?_⟩
  · rw [get_screens_of_count a 0 h1]
    rfl
  · rw [get_tags_of_count s 0 h2]
    rfl
  · rw [get_clients_of_count t 0 h3]
    rfl

/-- Claim C8 witness: a channel that answers `"0"` to every query. -/
theorem claim_c8_witness :
    (awesome.Awesome.mk (fun _ => .ok "0")).get_screens = .ok []
    ∧ (awesome.AwesomeScreen.mk 0
        (awesome.Awesome.mk (fun _ => .ok "0"))).get_tags = .ok []
    ∧ (awesome.AwesomeTag.mk 0 (awesome.AwesomeScreen.mk 0
        (awesome.Awesome.mk (fun _ => .ok "0")))).get_clients = .ok [] :=
  claim_c8 (awesome.Awesome.mk (fun _ => .ok "0"))
    (awesome.AwesomeScreen.mk 0 (awesome.Awesome.mk (fun _ => .ok "0")))
    (awesome.AwesomeTag.mk 0 (awesome.AwesomeScreen.mk 0
      (awesome.Awesome.mk (fun _ => .ok "0"))))
    rfl rfl rfl

/-- Claim C5: if the transport fails on the count query, the children
enumeration returns exactly that transport error and constructs zero
child nodes, on every container level. -/
theorem claim_c5 (a : awesome.Awesome) (s : awesome.AwesomeScreen)
    (t : awesome.AwesomeTag) (z1 z2 z3 : ZbusError)
    (h1 : a.chan "return tostring(screen:count())" = .error z1)
    (h2 : s.inst.chan ("return tostring(" ++
      ("#screen[" ++ toString (s.index + 1) ++ "].tags") ++ ")") = .error z2)
    (h3 : t.screen.inst.chan ("return tostring(" ++
      ("#screen[" ++ toString (t.screen.index + 1) ++ "].tags[" ++
        toString (t.index + 1) ++ "]:clients()") ++ ")") = .error z3) :
    a.get_screens = .error (.DBusConnectionError z1)
    ∧ s.get_tags = .error (.DBusConnectionError z2)
    ∧ t.get_clients = .error (.DBusConnectionError z3) := by
  refine ⟨?_, ?_, ?_⟩
  · unfold awesome.Awesome.get_screens awesome.Awesome.get_screen_count
      awesome.Awesome.execute awesome.Awesome.eval
    rw [show ("return tostring(" ++ "screen:count()" ++ ")" : String) =
      "return tostring(screen:count())" from rfl, h1]
    rfl
  · unfold awesome.AwesomeScreen.get_tags awesome.AwesomeScreen.get_tag_count
      awesome.Awesome.execute awesome.Awesome.eval
    rw [h2]
    rfl
  · unfold awesome.AwesomeTag.get_clients awesome.Awesome.execute awesome.Awesome.eval
    rw [h3]
    rfl

/-- Claim C5 witness: a channel that fails every call with a transport
error propagates that error out of every children enumeration. -/
theorem claim_c5_witness :
    (awesome.Awesome.mk (fun _ => .error ⟨"down"⟩)).get_screens
      = .error (.DBusConnectionError ⟨"down"⟩)
    ∧ (awesome.AwesomeScreen.mk 0
        (awesome.Awesome.mk (fun _ => .error ⟨"down"⟩))).get_tags
      = .error (.DBusConnectionError ⟨"down"⟩)
    ∧ (awesome.AwesomeTag.mk 0 (awesome.AwesomeScreen.mk 0
        (awesome.Awesome.mk (fun _ => .error ⟨"down"⟩)))).get_clients
      = .error (.DBusConnectionError ⟨"down"⟩) :=
  claim_c5 (awesome.Awesome.mk (fun _ => .error ⟨"down"⟩))
    (awesome.AwesomeScreen.mk 0
      (awesome.Awesome.mk (fun _ => .error ⟨"down"⟩)))
    (awesome.AwesomeTag.mk 0 (awesome.AwesomeScreen.mk 0
      (awesome.Awesome.mk (fun _ => .error ⟨"down"⟩))))
    ⟨"down"⟩ ⟨"down"⟩ ⟨"down"⟩ rfl rfl rfl

/-- Claim C1: window addressing is asymmetric.  Enumeration stores each
index of each window as `i + 1` (1-based at creation), and every window
property query (name, class, window handle) embeds the stored index `k`
unmodified in the transmitted expression, while the screen and tag
indices are sent as `index + 1`.  The index bounds record that a node
constructed by enumeration carries a `u32` index whose `+ 1` cannot
overflow. -/
theorem claim_c1 (t : awesome.AwesomeTag) (cl : awesome.AwesomeClient) (p : Nat)
    (_ho : cl.tag.screen.index < 4294967295) (_hw : cl.tag.index < 4294967295)
    (_hk : 1 ≤ cl.index ∧ cl.index ≤ 4294967295)
    (hp : parseCountWith awesome.EvalError.CountParseError
      (t.screen.inst.execute
        ("#screen[" ++ toString (t.screen.index + 1) ++ "].tags[" ++
          toString (t.index + 1) ++ "]:clients()")) = .ok p) :
    (∃ l, t.get_clients = .ok l ∧
      l.map (fun x => x.index) = (List.range p).map (fun i => i + 1))
    ∧ cl.get_name = cl.tag.screen.inst.eval
      ("return tostring(" ++
        ("screen[" ++ toString (cl.tag.screen.index + 1) ++ "].tags[" ++
          toString (cl.tag.index + 1) ++ "]:clients()[" ++
          toString cl.index ++ "].name") ++ ")")
    ∧ cl.get_x_window_id = parseCountWith awesome.EvalError.CountParseError
      (cl.tag.screen.inst.eval
        ("return tostring(" ++
          ("screen[" ++ toString (cl.tag.screen.index + 1) ++ "].tags[" ++
            toString (cl.tag.index + 1) ++ "]:clients()[" ++
            toString cl.index ++ "].window") ++ ")"))
    ∧ cl.get_class = cl.tag.screen.inst.eval
      ("return tostring(" ++
        ("screen[" ++ toString (cl.tag.screen.index + 1) ++ "].tags[" ++
          toString (cl.tag.index + 1) ++ "]:clients()[" ++
          toString cl.index ++ "].class") ++ ")") :=
  ⟨⟨_, get_clients_of_count t p hp, clients_map_index t p⟩, rfl, rfl, rfl⟩

/-- Claim C1 witness: output index 0, workspace index 0, stored window
index 1, and a channel answering `"2"` to every query. -/
theorem claim_c1_witness :
    (∃ l, (awesome.AwesomeTag.mk 0 (awesome.AwesomeScreen.mk 0
        (awesome.Awesome.mk (fun _ => .ok "2")))).get_clients = .ok l ∧
      l.map (fun x => x.index) = (List.range 2).map (fun i => i + 1))
    ∧ (awesome.AwesomeClient.mk 1 (awesome.AwesomeTag.mk 0 (awesome.AwesomeScreen.mk 0
        (awesome.Awesome.mk (fun _ => .ok "2"))))).get_name =
      (awesome.Awesome.mk (fun _ => .ok "2")).eval
        "return tostring(screen[1].tags[1]:clients()[1].name)"
    ∧ (awesome.AwesomeClient.mk 1 (awesome.AwesomeTag.mk 0 (awesome.AwesomeScreen.mk 0
        (awesome.Awesome.mk (fun _ => .ok "2"))))).get_x_window_id =
      parseCountWith awesome.EvalError.CountParseError
        ((awesome.Awesome.mk (fun _ => .ok "2")).eval
          "return tostring(screen[1].tags[1]:clients()[1].window)")
    ∧ (awesome.AwesomeClient.mk 1 (awesome.AwesomeTag.mk 0 (awesome.AwesomeScreen.mk 0
        (awesome.Awesome.mk (fun _ => .ok "2"))))).get_class =
      (awesome.Awesome.mk (fun _ => .ok "2")).eval
        "return tostring(screen[1].tags[1]:clients()[1].class)" :=
  claim_c1 (awesome.AwesomeTag.mk 0 (awesome.AwesomeScreen.mk 0
      (awesome.Awesome.mk (fun _ => .ok "2"))))
    (awesome.AwesomeClient.mk 1 (awesome.AwesomeTag.mk 0 (awesome.AwesomeScreen.mk 0
      (awesome.Awesome.mk (fun _ => .ok "2")))))
    2 (by decide) (by decide) (by decide) rfl

/-- Claim C3: the three count queries have exactly the stated shapes —
the screen count is the fixed parameterless expression `screen:count()`,
the tag count for a screen is parameterized only by `index + 1`, and the
client count is parameterized by the pair of 1-based screen and tag
indices.  Each equality exhibits the full transmitted text, so synthesis
is a pure function of the indices. -/
theorem claim_c3 (a : awesome.Awesome) (s : awesome.AwesomeScreen)
    (t : awesome.AwesomeTag)
    (_hs : s.index < 4294967295) (_ht1 : t.screen.index < 4294967295)
    (_ht2 : t.index < 4294967295) :
    a.get_screen_count = parseCountWith awesome.EvalError.CountParseError
      (a.eval "return tostring(screen:count())")
    ∧ s.get_tag_count = parseCountWith awesome.EvalError.CountParseError
      (s.inst.eval ("return tostring(" ++
        ("#screen[" ++ toString (s.index + 1) ++ "].tags") ++ ")"))
    ∧ t.get_clients =
      (match parseCountWith awesome.EvalError.CountParseError
          (t.screen.inst.eval ("return tostring(" ++
            ("#screen[" ++ toString (t.screen.index + 1) ++ "].tags[" ++
              toString (t.index + 1) ++ "]:clients()") ++ ")")) with
        | .error e => .error e
        | .ok n => .ok ((List.range n).map
            (fun i => ({ index := i + 1, tag := t } : awesome.AwesomeClient)))) := by
  refine ⟨rfl, rfl, ?_⟩
  unfold awesome.AwesomeTag.get_clients
  rw [show t.screen.inst.execute
      ("#screen[" ++ toString (t.screen.index + 1) ++ "].tags[" ++
        toString (t.index + 1) ++ "]:clients()") =
    t.screen.inst.eval ("return tostring(" ++
      ("#screen[" ++ toString (t.screen.index + 1) ++ "].tags[" ++
        toString (t.index + 1) ++ "]:clients()") ++ ")") from rfl]

/-- Claim C3 witness: concrete nodes at indices 0 over a channel that
always answers `"1"`. -/
theorem claim_c3_witness :
    (awesome.Awesome.mk (fun _ => .ok "1")).get_screen_count
      = parseCountWith awesome.EvalError.CountParseError
        ((awesome.Awesome.mk (fun _ => .ok "1")).eval
          "return tostring(screen:count())")
    ∧ (awesome.AwesomeScreen.mk 0
        (awesome.Awesome.mk (fun _ => .ok "1"))).get_tag_count
      = parseCountWith awesome.EvalError.CountParseError
        ((awesome.Awesome.mk (fun _ => .ok "1")).eval ("return tostring(" ++
          ("#screen[" ++ toString (0 + 1) ++ "].tags") ++ ")"))
    ∧ (awesome.AwesomeTag.mk 0 (awesome.AwesomeScreen.mk 0
        (awesome.Awesome.mk (fun _ => .ok "1")))).get_clients =
      (match parseCountWith awesome.EvalError.CountParseError
          ((awesome.Awesome.mk (fun _ => .ok "1")).eval ("return tostring(" ++
            ("#screen[" ++ toString (0 + 1) ++ "].tags[" ++
              toString (0 + 1) ++ "]:clients()") ++ ")")) with
        | .error e => .error e
        | .ok n => .ok ((List.range n).map
            (fun i => awesome.AwesomeClient.mk (i + 1)
              (awesome.AwesomeTag.mk 0 (awesome.AwesomeScreen.mk 0
                (awesome.Awesome.mk (fun _ => .ok "1"))))))) :=
  claim_c3 (awesome.Awesome.mk (fun _ => .ok "1"))
    (awesome.AwesomeScreen.mk 0 (awesome.Awesome.mk (fun _ => .ok "1")))
    (awesome.AwesomeTag.mk 0 (awesome.AwesomeScreen.mk 0
      (awesome.Awesome.mk (fun _ => .ok "1"))))
    (by decide) (by decide) (by decide)

/-- Claim C4: decoding the reply `"3"` yields 3; decoding `"abc"` yields
a `CountParseError` (decode failure), never a `DBusConnectionError`
(transport failure); the two variants are distinct. -/
theorem claim_c4 (chan3 chanA : String → Except ZbusError String)
    (h3 : chan3 "return tostring(screen:count())" = .ok "3")
    (hA : chanA "return tostring(screen:count())" = .ok "abc") :
    parseU32 "3" = .ok 3
    ∧ parseU32 "abc" = .error ⟨.invalidDigit⟩
    ∧ (awesome.Awesome.mk chan3).get_screen_count = .ok 3
    ∧ (awesome.Awesome.mk chanA).get_screen_count
      = .error (.CountParseError ⟨.invalidDigit⟩)
    ∧ ∀ (e : ParseIntError) (z : ZbusError),
        awesome.EvalError.CountParseError e ≠ awesome.EvalError.DBusConnectionError z := by
  refine ⟨rfl, rfl, ?_, ?_, ?_⟩
  · unfold awesome.Awesome.get_screen_count awesome.Awesome.execute awesome.Awesome.eval
    rw [show (awesome.Awesome.mk chan3).chan = chan3 from rfl,
      show ("return tostring(" ++ "screen:count()" ++ ")" : String) =
        "return tostring(screen:count())" from rfl, h3]
    rfl
  · unfold awesome.Awesome.get_screen_count awesome.Awesome.execute awesome.Awesome.eval
    rw [show (awesome.Awesome.mk chanA).chan = chanA from rfl,
      show ("return tostring(" ++ "screen:count()" ++ ")" : String) =
        "return tostring(screen:count())" from rfl, hA]
    rfl
  · intro e z hne
    exact awesome.EvalError.noConfusion hne

/-- Claim C4 witness: the channels answering `"3"` and `"abc"`. -/
theorem claim_c4_witness :
    parseU32 "3" = .ok 3
    ∧ parseU32 "abc" = .error ⟨.invalidDigit⟩
    ∧ (awesome.Awesome.mk (fun _ => .ok "3")).get_screen_count = .ok 3
    ∧ (awesome.Awesome.mk (fun _ => .ok "abc")).get_screen_count
      = .error (.CountParseError ⟨.invalidDigit⟩)
    ∧ ∀ (e : ParseIntError) (z : ZbusError),
        awesome.EvalError.CountParseError e ≠ awesome.EvalError.DBusConnectionError z :=
  claim_c4 (fun _ => .ok "3") (fun _ => .ok "abc") rfl rfl

/-- Claim C7: count parsing and window-handle parsing report decode
failures through the same single variant `CountParseError`, carrying the
`ParseIntError` of the failed parse, distinguished only by call site;
both remain distinct from the transport variant. -/
theorem claim_c7 (a : awesome.Awesome) (cl : awesome.AwesomeClient)
    (s1 s2 : String) (e1 e2 : ParseIntError)
    (ha1 : a.chan "return tostring(screen:count())" = .ok s1)
    (ha2 : parseU32 s1 = .error e1)
    (hc1 : cl.tag.screen.inst.chan ("return tostring(" ++
      ("screen[" ++ toString (cl.tag.screen.index + 1) ++ "].tags[" ++
        toString (cl.tag.index + 1) ++ "]:clients()[" ++
        toString cl.index ++ "].window") ++ ")") = .ok s2)
    (hc2 : parseU32 s2 = .error e2) :
    a.get_screen_count = .error (.CountParseError e1)
    ∧ cl.get_x_window_id = .error (.CountParseError e2)
    ∧ ∀ (e : ParseIntError) (z : ZbusError),
        awesome.EvalError.CountParseError e ≠ awesome.EvalError.DBusConnectionError z := by
  refine ⟨?_, ?_, ?_⟩
  · unfold awesome.Awesome.get_screen_count awesome.Awesome.execute awesome.Awesome.eval
    rw [show ("return tostring(" ++ "screen:count()" ++ ")" : String) =
      "return tostring(screen:count())" from rfl, ha1]
    simp [parseCountWith, ha2]
  · unfold awesome.AwesomeClient.get_x_window_id awesome.Awesome.execute awesome.Awesome.eval
    rw [hc1]
    simp [parseCountWith, hc2]
  · intro e z hne
    exact awesome.EvalError.noConfusion hne

/-- Claim C7 witness: a channel answering `"oops"` everywhere makes both
the screen count and the window handle fail with the same error value
`CountParseError InvalidDigit`. -/
theorem claim_c7_witness :
    (awesome.Awesome.mk (fun _ => .ok "oops")).get_screen_count
      = .error (.CountParseError ⟨.invalidDigit⟩)
    ∧ (awesome.AwesomeClient.mk 1 (awesome.AwesomeTag.mk 0 (awesome.AwesomeScreen.mk 0
        (awesome.Awesome.mk (fun _ => .ok "oops"))))).get_x_window_id
      = .error (.CountParseError ⟨.invalidDigit⟩)
    ∧ ∀ (e : ParseIntError) (z : ZbusError),
        awesome.EvalError.CountParseError e ≠ awesome.EvalError.DBusConnectionError z :=
  claim_c7 (awesome.Awesome.mk (fun _ => .ok "oops"))
    (awesome.AwesomeClient.mk 1 (awesome.AwesomeTag.mk 0 (awesome.AwesomeScreen.mk 0
      (awesome.Awesome.mk (fun _ => .ok "oops")))))
    "oops" "oops" ⟨.invalidDigit⟩ ⟨.invalidDigit⟩ rfl rfl rfl rfl

/-- Claim C9: every unsigned decode target is a 32-bit integer.  A
nonempty all-digit reply denoting a value above `u32::MAX = 4294967295`
decodes to `PosOverflow` (never a wrapped or truncated value), any reply
with a leading minus sign decodes to `InvalidDigit`, the boundary value
4294967295 still decodes, and both the count accessor and the
window-handle accessor surface these as `CountParseError`. -/
theorem claim_c9 (s : String) (a : awesome.Awesome) (cl : awesome.AwesomeClient)
    (h1 : s.data ≠ [])
    (h2 : ∀ c ∈ s.data, 48 ≤ c.toNat ∧ c.toNat ≤ 57)
    (h3 : 4294967295 < digitsVal s.data)
    (ha : a.chan "return tostring(screen:count())" = .ok "4294967296")
    (hcl : cl.tag.screen.inst.chan ("return tostring(" ++
      ("screen[" ++ toString (cl.tag.screen.index + 1) ++ "].tags[" ++
        toString (cl.tag.index + 1) ++ "]:clients()[" ++
        toString cl.index ++ "].window") ++ ")") = .ok "-7") :
    parseU32 s = .error ⟨.posOverflow⟩
    ∧ (∀ (u : String) (l : List Char), u.data = '-' :: l →
        parseU32 u = .error ⟨.invalidDigit⟩)
    ∧ parseU32 "4294967295" = .ok 4294967295
    ∧ parseU32 "4294967296" = .error ⟨.posOverflow⟩
    ∧ parseU32 "-1" = .error ⟨.invalidDigit⟩
    ∧ a.get_screen_count = .error (.CountParseError ⟨.posOverflow⟩)
    ∧ cl.get_x_window_id = .error (.CountParseError ⟨.invalidDigit⟩) := by
  refine ⟨parseU32_overflow s h1 h2 h3, parseU32_neg, rfl, rfl, rfl, ?_, ?_⟩
  · unfold awesome.Awesome.get_screen_count awesome.Awesome.execute awesome.Awesome.eval
    rw [show ("return tostring(" ++ "screen:count()" ++ ")" : String) =
      "return tostring(screen:count())" from rfl, ha]
    rfl
  · unfold awesome.AwesomeClient.get_x_window_id awesome.Awesome.execute awesome.Awesome.eval
    rw [hcl]
    rfl

/-- Claim C9 witness: the all-digit string `"9999999999"` (value
9999999999 > 4294967295), a channel answering `"4294967296"` for the
count, and a channel answering `"-7"` for the window handle. -/
theorem claim_c9_witness :
    parseU32 "9999999999" = .error ⟨.posOverflow⟩
    ∧ (∀ (u : String) (l : List Char), u.data = '-' :: l →
        parseU32 u = .error ⟨.invalidDigit⟩)
    ∧ parseU32 "4294967295" = .ok 4294967295
    ∧ parseU32 "4294967296" = .error ⟨.posOverflow⟩
    ∧ parseU32 "-1" = .error ⟨.invalidDigit⟩
    ∧ (awesome.Awesome.mk (fun _ => .ok "4294967296")).get_screen_count
      = .error (.CountParseError ⟨.posOverflow⟩)
    ∧ (awesome.AwesomeClient.mk 1 (awesome.AwesomeTag.mk 0 (awesome.AwesomeScreen.mk 0
        (awesome.Awesome.mk (fun _ => .ok "-7"))))).get_x_window_id
      = .error (.CountParseError ⟨.invalidDigit⟩) :=
  claim_c9 "9999999999"
    (awesome.Awesome.mk (fun _ => .ok "4294967296"))
    (awesome.AwesomeClient.mk 1 (awesome.AwesomeTag.mk 0 (awesome.AwesomeScreen.mk 0
      (awesome.Awesome.mk (fun _ => .ok "-7")))))
    (by decide) (by decide) (by decide) rfl rfl

/-- Two channels that agree on every wrapped expression are
indistinguishable through `execute`: every transmitted text has the
shape `return tostring(..)`. -/
theorem execute_congr (chan1 chan2 : String → Except ZbusError String)
    (h : ∀ c : String, chan1 ("return tostring(" ++ c ++ ")")
      = chan2 ("return tostring(" ++ c ++ ")"))
    (code : String) :
    (awesome.Awesome.mk chan1).execute code
      = (awesome.Awesome.mk chan2).execute code := by
  unfold awesome.Awesome.execute awesome.Awesome.eval
  rw [show (awesome.Awesome.mk chan1).chan = chan1 from rfl,
    show (awesome.Awesome.mk chan2).chan = chan2 from rfl, h code]

/-- Claim C6: every expression sent through the channel is wrapped in
the fixed template `return tostring(..)` — `execute` transmits exactly
the template applied to its argument, and no accessor bypasses the
wrapping: two channels that agree on all wrapped strings (and may differ
everywhere else) are indistinguishable through every accessor of the
model. -/
theorem claim_c6 (chan1 chan2 : String → Except ZbusError String) (o w k : Nat)
    (h : ∀ c : String, chan1 ("return tostring(" ++ c ++ ")")
      = chan2 ("return tostring(" ++ c ++ ")")) :
    (∀ (a : awesome.Awesome) (code : String),
      a.execute code = a.eval ("return tostring(" ++ code ++ ")"))
    ∧ (awesome.Awesome.mk chan1).get_screen_count
      = (awesome.Awesome.mk chan2).get_screen_count
    ∧ idxView (fun x => x.index) (awesome.Awesome.mk chan1).get_screens
      = idxView (fun x => x.index) (awesome.Awesome.mk chan2).get_screens
    ∧ (awesome.AwesomeScreen.mk o (awesome.Awesome.mk chan1)).get_tag_count
      = (awesome.AwesomeScreen.mk o (awesome.Awesome.mk chan2)).get_tag_count
    ∧ idxView (fun x => x.index)
        (awesome.AwesomeScreen.mk o (awesome.Awesome.mk chan1)).get_tags
      = idxView (fun x => x.index)
        (awesome.AwesomeScreen.mk o (awesome.Awesome.mk chan2)).get_tags
    ∧ (awesome.AwesomeTag.mk w (awesome.AwesomeScreen.mk o
        (awesome.Awesome.mk chan1))).get_name
      = (awesome.AwesomeTag.mk w (awesome.AwesomeScreen.mk o
        (awesome.Awesome.mk chan2))).get_name
    ∧ idxView (fun x => x.index)
        (awesome.AwesomeTag.mk w (awesome.AwesomeScreen.mk o
          (awesome.Awesome.mk chan1))).get_clients
      = idxView (fun x => x.index)
        (awesome.AwesomeTag.mk w (awesome.AwesomeScreen.mk o
          (awesome.Awesome.mk chan2))).get_clients
    ∧ (awesome.AwesomeClient.mk k (awesome.AwesomeTag.mk w (awesome.AwesomeScreen.mk o
        (awesome.Awesome.mk chan1)))).get_name
      = (awesome.AwesomeClient.mk k (awesome.AwesomeTag.mk w (awesome.AwesomeScreen.mk o
        (awesome.Awesome.mk chan2)))).get_name
    ∧ (awesome.AwesomeClient.mk k (awesome.AwesomeTag.mk w (awesome.AwesomeScreen.mk o
        (awesome.Awesome.mk chan1)))).get_x_window_id
      = (awesome.AwesomeClient.mk k (awesome.AwesomeTag.mk w (awesome.AwesomeScreen.mk o
        (awesome.Awesome.mk chan2)))).get_x_window_id
    ∧ (awesome.AwesomeClient.mk k (awesome.AwesomeTag.mk w (awesome.AwesomeScreen.mk o
        (awesome.Awesome.mk chan1)))).get_class
      = (awesome.AwesomeClient.mk k (awesome.AwesomeTag.mk w (awesome.AwesomeScreen.mk o
        (awesome.Awesome.mk chan2)))).get_class := by
  have hi1 : (awesome.AwesomeScreen.mk o (awesome.Awesome.mk chan1)).inst
    = awesome.Awesome.mk chan1 := rfl
  have hi2 : (awesome.AwesomeScreen.mk o (awesome.Awesome.mk chan2)).inst
    = awesome.Awesome.mk chan2 := rfl
  have hx1 : (awesome.AwesomeScreen.mk o (awesome.Awesome.mk chan1)).index = o := rfl
  have hx2 : (awesome.AwesomeScreen.mk o (awesome.Awesome.mk chan2)).index = o := rfl
  have ht1 : (awesome.AwesomeTag.mk w (awesome.AwesomeScreen.mk o
    (awesome.Awesome.mk chan1))).screen = awesome.AwesomeScreen.mk o
      (awesome.Awesome.mk chan1) := rfl
  have ht2 : (awesome.AwesomeTag.mk w (awesome.AwesomeScreen.mk o
    (awesome.Awesome.mk chan2))).screen = awesome.AwesomeScreen.mk o
      (awesome.Awesome.mk chan2) := rfl
  have hw1 : (awesome.AwesomeTag.mk w (awesome.AwesomeScreen.mk o
    (awesome.Awesome.mk chan1))).index = w := rfl
  have hw2 : (awesome.AwesomeTag.mk w (awesome.AwesomeScreen.mk o
    (awesome.Awesome.mk chan2))).index = w := rfl
  have hc1 : (awesome.AwesomeClient.mk k (awesome.AwesomeTag.mk w
    (awesome.AwesomeScreen.mk o (awesome.Awesome.mk chan1)))).tag
      = awesome.AwesomeTag.mk w (awesome.AwesomeScreen.mk o
        (awesome.Awesome.mk chan1)) := rfl
  have hc2 : (awesome.AwesomeClient.mk k (awesome.AwesomeTag.mk w
    (awesome.AwesomeScreen.mk o (awesome.Awesome.mk chan2)))).tag
      = awesome.AwesomeTag.mk w (awesome.AwesomeScreen.mk o
        (awesome.Awesome.mk chan2)) := rfl
  have hk1 : (awesome.AwesomeClient.mk k (awesome.AwesomeTag.mk w
    (awesome.AwesomeScreen.mk o (awesome.Awesome.mk chan1)))).index = k := rfl
  have hk2 : (awesome.AwesomeClient.mk k (awesome.AwesomeTag.mk w
    (awesome.AwesomeScreen.mk o (awesome.Awesome.mk chan2)))).index = k := rfl
  refine ⟨fun a code => rfl, ?_, ?_, ?_, ?_, ?_, ?_, ?_, ?_, ?_⟩
  · unfold awesome.Awesome.get_screen_count
    rw [execute_congr chan1 chan2 h "screen:count()"]
  · unfold awesome.Awesome.get_screens awesome.Awesome.get_screen_count
    rw [execute_congr chan1 chan2 h "screen:count()"]
    cases parseCountWith awesome.EvalError.CountParseError
        ((awesome.Awesome.mk chan2).execute "screen:count()") with
    | error e => rfl
    | ok n =>
      simp only [idxView]
      rw [screens_map_index (awesome.Awesome.mk chan1) n,
        screens_map_index (awesome.Awesome.mk chan2) n]
  · unfold awesome.AwesomeScreen.get_tag_count
    simp only [hi1, hi2, hx1, hx2, execute_congr chan1 chan2 h]
  · unfold awesome.AwesomeScreen.get_tags awesome.AwesomeScreen.get_tag_count
    simp only [hi1, hi2, hx1, hx2, execute_congr chan1 chan2 h]
    cases parseCountWith awesome.EvalError.CountParseError
        ((awesome.Awesome.mk chan2).execute
          ("#screen[" ++ toString (o + 1) ++ "].tags")) with
    | error e => rfl
    | ok n =>
      simp only [idxView]
      rw [tags_map_index (awesome.AwesomeScreen.mk o (awesome.Awesome.mk chan1)) n,
        tags_map_index (awesome.AwesomeScreen.mk o (awesome.Awesome.mk chan2)) n]
  · unfold awesome.AwesomeTag.get_name
    simp only [ht1, ht2, hw1, hw2, hi1, hi2, hx1, hx2, execute_congr chan1 chan2 h]
  · unfold awesome.AwesomeTag.get_clients
    simp only [ht1, ht2, hw1, hw2, hi1, hi2, hx1, hx2, execute_congr chan1 chan2 h]
    cases parseCountWith awesome.EvalError.CountParseError
        ((awesome.Awesome.mk chan2).execute
          ("#screen[" ++ toString (o + 1) ++ "].tags[" ++
            toString (w + 1) ++ "]:clients()")) with
    | error e => rfl
    | ok n =>
      simp only [idxView]
      rw [clients_map_index (awesome.AwesomeTag.mk w (awesome.AwesomeScreen.mk o
          (awesome.Awesome.mk chan1))) n,
        clients_map_index (awesome.AwesomeTag.mk w (awesome.AwesomeScreen.mk o
          (awesome.Awesome.mk chan2))) n]
  · unfold awesome.AwesomeClient.get_name
    simp only [hc1, hc2, hk1, hk2, ht1, ht2, hw1, hw2, hi1, hi2, hx1, hx2,
      execute_congr chan1 chan2 h]
  · unfold awesome.AwesomeClient.get_x_window_id
    simp only [hc1, hc2, hk1, hk2, ht1, ht2, hw1, hw2, hi1, hi2, hx1, hx2,
      execute_congr chan1 chan2 h]
  · unfold awesome.AwesomeClient.get_class
    simp only [hc1, hc2, hk1, hk2, ht1, ht2, hw1, hw2, hi1, hi2, hx1, hx2,
      execute_congr chan1 chan2 h]

/-- Claim C6 witness: instantiated with two (identical) channels that
agree on all wrapped strings, at indices 0, 0, 0. -/
theorem claim_c6_witness :
    (∀ (a : awesome.Awesome) (code : String),
      a.execute code = a.eval ("return tostring(" ++ code ++ ")"))
    ∧ (awesome.Awesome.mk (fun _ => .ok "1")).get_screen_count
      = (awesome.Awesome.mk (fun _ => .ok "1")).get_screen_count
    ∧ idxView (fun x => x.index) (awesome.Awesome.mk (fun _ => .ok "1")).get_screens
      = idxView (fun x => x.index) (awesome.Awesome.mk (fun _ => .ok "1")).get_screens
    ∧ (awesome.AwesomeScreen.mk 0 (awesome.Awesome.mk (fun _ => .ok "1"))).get_tag_count
      = (awesome.AwesomeScreen.mk 0 (awesome.Awesome.mk (fun _ => .ok "1"))).get_tag_count
    ∧ idxView (fun x => x.index)
        (awesome.AwesomeScreen.mk 0 (awesome.Awesome.mk (fun _ => .ok "1"))).get_tags
      = idxView (fun x => x.index)
        (awesome.AwesomeScreen.mk 0 (awesome.Awesome.mk (fun _ => .ok "1"))).get_tags
    ∧ (awesome.AwesomeTag.mk 0 (awesome.AwesomeScreen.mk 0
        (awesome.Awesome.mk (fun _ => .ok "1")))).get_name
      = (awesome.AwesomeTag.mk 0 (awesome.AwesomeScreen.mk 0
        (awesome.Awesome.mk (fun _ => .ok "1")))).get_name
    ∧ idxView (fun x => x.index)
        (awesome.AwesomeTag.mk 0 (awesome.AwesomeScreen.mk 0
          (awesome.Awesome.mk (fun _ => .ok "1")))).get_clients
      = idxView (fun x => x.index)
        (awesome.AwesomeTag.mk 0 (awesome.AwesomeScreen.mk 0
          (awesome.Awesome.mk (fun _ => .ok "1")))).get_clients
    ∧ (awesome.AwesomeClient.mk 0 (awesome.AwesomeTag.mk 0 (awesome.AwesomeScreen.mk 0
        (awesome.Awesome.mk (fun _ => .ok "1"))))).get_name
      = (awesome.AwesomeClient.mk 0 (awesome.AwesomeTag.mk 0 (awesome.AwesomeScreen.mk 0
        (awesome.Awesome.mk (fun _ => .ok "1"))))).get_name
    ∧ (awesome.AwesomeClient.mk 0 (awesome.AwesomeTag.mk 0 (awesome.AwesomeScreen.mk 0
        (awesome.Awesome.mk (fun _ => .ok "1"))))).get_x_window_id
      = (awesome.AwesomeClient.mk 0 (awesome.AwesomeTag.mk 0 (awesome.AwesomeScreen.mk 0
        (awesome.Awesome.mk (fun _ => .ok "1"))))).get_x_window_id
    ∧ (awesome.AwesomeClient.mk 0 (awesome.AwesomeTag.mk 0 (awesome.AwesomeScreen.mk 0
        (awesome.Awesome.mk (fun _ => .ok "1"))))).get_class
      = (awesome.AwesomeClient.mk 0 (awesome.AwesomeTag.mk 0 (awesome.AwesomeScreen.mk 0
        (awesome.Awesome.mk (fun _ => .ok "1"))))).get_class :=
  claim_c6 (fun _ => .ok "1") (fun _ => .ok "1") 0 0 0 (fun _ => rfl)

/-- `execute` commutes with the translation: both copies transmit the
same text over the same channel and classify failures the same way. -/
theorem trRes_execute (a : awesome.Awesome) (code : String) :
    (trAwesome a).execute code = trRes id (a.execute code) := by
  unfold mainmod.Awesome.execute mainmod.Awesome.eval
    awesome.Awesome.execute awesome.Awesome.eval
  rw [show (trAwesome a).chan = a.chan from rfl]
  cases a.chan ("return tostring(" ++ code ++ ")") with
  | ok reply => rfl
  | error e => rfl

theorem parseCountWith_ok {ε : Type} (mkErr : ParseIntError → ε) (v : String) :
    parseCountWith mkErr (.ok v) =
      (match parseU32 v with
        | .ok n => .ok n
        | .error e => .error (mkErr e)) := rfl

/-- The count-parsing idiom commutes with the translation. -/
theorem trRes_parseCount (r : Except awesome.EvalError String) :
    parseCountWith mainmod.EvalError.CountParseError (trRes id r)
      = trRes id (parseCountWith awesome.EvalError.CountParseError r) := by
  cases r with
  | error e => rfl
  | ok v =>
    rw [show trRes id (Except.ok v : Except awesome.EvalError String)
        = (Except.ok v : Except mainmod.EvalError String) from rfl,
      parseCountWith_ok mainmod.EvalError.CountParseError v,
      parseCountWith_ok awesome.EvalError.CountParseError v]
    cases parseU32 v with
    | ok n => rfl
    | error e => rfl

theorem trRes_screen_count (a : awesome.Awesome) :
    (trAwesome a).get_screen_count = trRes id a.get_screen_count := by
  unfold mainmod.Awesome.get_screen_count awesome.Awesome.get_screen_count
  rw [trRes_execute a "screen:count()", trRes_parseCount]

theorem trRes_screens (a : awesome.Awesome) :
    (trAwesome a).get_screens = trRes (List.map trScreen) a.get_screens := by
  unfold mainmod.Awesome.get_screens awesome.Awesome.get_screens
  rw [trRes_screen_count a]
  cases a.get_screen_count with
  | error e => rfl
  | ok n =>
    simp only [trRes, id_eq, List.map_map]
    rfl

theorem trRes_tag_count (s : awesome.AwesomeScreen) :
    (trScreen s).get_tag_count = trRes id s.get_tag_count := by
  unfold mainmod.AwesomeScreen.get_tag_count awesome.AwesomeScreen.get_tag_count
  rw [show (trScreen s).inst = trAwesome s.inst from rfl,
    show (trScreen s).index = s.index from rfl,
    trRes_execute s.inst ("#screen[" ++ toString (s.index + 1) ++ "].tags"),
    trRes_parseCount]

theorem trRes_tags (s : awesome.AwesomeScreen) :
    (trScreen s).get_tags = trRes (List.map trTag) s.get_tags := by
  unfold mainmod.AwesomeScreen.get_tags awesome.AwesomeScreen.get_tags
  rw [trRes_tag_count s]
  cases s.get_tag_count with
  | error e => rfl
  | ok n =>
    simp only [trRes, id_eq, List.map_map]
    rfl

theorem trRes_tag_name (t : awesome.AwesomeTag) :
    (trTag t).get_name = trRes id t.get_name := by
  unfold mainmod.AwesomeTag.get_name awesome.AwesomeTag.get_name
  rw [show (trTag t).screen.inst = trAwesome t.screen.inst from rfl,
    show (trTag t).screen.index = t.screen.index from rfl,
    show (trTag t).index = t.index from rfl,
    trRes_execute t.screen.inst
      ("screen[" ++ toString (t.screen.index + 1) ++ "].tags[" ++
        toString (t.index + 1) ++ "].name")]

theorem trRes_clients (t : awesome.AwesomeTag) :
    (trTag t).get_clients = trRes (List.map trClient) t.get_clients := by
  unfold mainmod.AwesomeTag.get_clients awesome.AwesomeTag.get_clients
  rw [show (trTag t).screen.inst = trAwesome t.screen.inst from rfl,
    show (trTag t).screen.index = t.screen.index from rfl,
    show (trTag t).index = t.index from rfl,
    trRes_execute t.screen.inst
      ("#screen[" ++ toString (t.screen.index + 1) ++ "].tags[" ++
        toString (t.index + 1) ++ "]:clients()"),
    trRes_parseCount]
  cases parseCountWith awesome.EvalError.CountParseError
      (t.screen.inst.execute
        ("#screen[" ++ toString (t.screen.index + 1) ++ "].tags[" ++
          toString (t.index + 1) ++ "]:clients()")) with
  | error e => rfl
  | ok n =>
    simp only [trRes, id_eq, List.map_map]
    rfl

theorem trRes_client_name (c : awesome.AwesomeClient) :
    (trClient c).get_name = trRes id c.get_name := by
  unfold mainmod.AwesomeClient.get_name awesome.AwesomeClient.get_name
  rw [show (trClient c).tag.screen.inst = trAwesome c.tag.screen.inst from rfl,
    show (trClient c).tag.screen.index = c.tag.screen.index from rfl,
    show (trClient c).tag.index = c.tag.index from rfl,
    show (trClient c).index = c.index from rfl,
    trRes_execute c.tag.screen.inst
      ("screen[" ++ toString (c.tag.screen.index + 1) ++ "].tags[" ++
        toString (c.tag.index + 1) ++ "]:clients()[" ++
        toString c.index ++ "].name")]

theorem trRes_client_window (c : awesome.AwesomeClient) :
    (trClient c).get_x_window_id = trRes id c.get_x_window_id := by
  unfold mainmod.AwesomeClient.get_x_window_id awesome.AwesomeClient.get_x_window_id
  rw [show (trClient c).tag.screen.inst = trAwesome c.tag.screen.inst from rfl,
    show (trClient c).tag.screen.index = c.tag.screen.index from rfl,
    show (trClient c).tag.index = c.tag.index from rfl,
    show (trClient c).index = c.index from rfl,
    trRes_execute c.tag.screen.inst
      ("screen[" ++ toString (c.tag.screen.index + 1) ++ "].tags[" ++
        toString (c.tag.index + 1) ++ "]:clients()[" ++
        toString c.index ++ "].window"),
    trRes_parseCount]

theorem trRes_client_class (c : awesome.AwesomeClient) :
    (trClient c).get_class = trRes id c.get_class := by
  unfold mainmod.AwesomeClient.get_class awesome.AwesomeClient.get_class
  rw [show (trClient c).tag.screen.inst = trAwesome c.tag.screen.inst from rfl,
    show (trClient c).tag.screen.index = c.tag.screen.index from rfl,
    show (trClient c).tag.index = c.tag.index from rfl,
    show (trClient c).index = c.index from rfl,
    trRes_execute c.tag.screen.inst
      ("screen[" ++ toString (c.tag.screen.index + 1) ++ "].tags[" ++
        toString (c.tag.index + 1) ++ "]:clients()[" ++
        toString c.index ++ "].class")]

/-- A translated result is never the entry-point-only `Unknown` error. -/
theorem trRes_ne_unknown {α β : Type} (f : α → β) (r : Except awesome.EvalError α) :
    trRes f r ≠ .error mainmod.EvalError.Unknown := by
  cases r with
  | ok v => intro hcontra; exact Except.noConfusion hcontra
  | error e => intro hcontra; cases e <;> simp [trRes, trErr] at hcontra

/-- Claim C10: the proxy model in `src/awesome.rs` and the copy embedded
in `src/main.rs` are behaviorally equal.  Every entry-point node is (by
structure eta) the translation `trAwesome`/`trScreen`/`trTag`/`trClient`
of a library node over the same channel; under that translation every
accessor pair synthesizes the same expression text, returns the same
value, and classifies errors identically (`trRes`/`trErr` map variants
one to one), and the entry-point-only `Unknown` variant is never
produced by any operation. -/
theorem claim_c10 (a : awesome.Awesome) (s : awesome.AwesomeScreen)
    (t : awesome.AwesomeTag) (cl : awesome.AwesomeClient) (code : String) :
    (trAwesome a).execute code = trRes id (a.execute code)
    ∧ (trAwesome a).get_screen_count = trRes id a.get_screen_count
    ∧ (trAwesome a).get_screens = trRes (List.map trScreen) a.get_screens
    ∧ (trScreen s).get_tag_count = trRes id s.get_tag_count
    ∧ (trScreen s).get_tags = trRes (List.map trTag) s.get_tags
    ∧ (trTag t).get_name = trRes id t.get_name
    ∧ (trTag t).get_clients = trRes (List.map trClient) t.get_clients
    ∧ (trClient cl).get_name = trRes id cl.get_name
    ∧ (trClient cl).get_x_window_id = trRes id cl.get_x_window_id
    ∧ (trClient cl).get_class = trRes id cl.get_class
    ∧ (∀ e : awesome.EvalError, trErr e ≠ mainmod.EvalError.Unknown)
    ∧ (trAwesome a).execute code ≠ .error mainmod.EvalError.Unknown
    ∧ (trAwesome a).get_screen_count ≠ .error mainmod.EvalError.Unknown
    ∧ (trAwesome a).get_screens ≠ .error mainmod.EvalError.Unknown
    ∧ (trScreen s).get_tag_count ≠ .error mainmod.EvalError.Unknown
    ∧ (trScreen s).get_tags ≠ .error mainmod.EvalError.Unknown
    ∧ (trTag t).get_name ≠ .error mainmod.EvalError.Unknown
    ∧ (trTag t).get_clients ≠ .error mainmod.EvalError.Unknown
    ∧ (trClient cl).get_name ≠ .error mainmod.EvalError.Unknown
    ∧ (trClient cl).get_x_window_id ≠ .error mainmod.EvalError.Unknown
    ∧ (trClient cl).get_class ≠ .error mainmod.EvalError.Unknown := by
  refine ⟨trRes_execute a code, trRes_screen_count a, trRes_screens a,
    trRes_tag_count s, trRes_tags s, trRes_tag_name t, trRes_clients t,
    trRes_client_name cl, trRes_client_window cl, trRes_client_class cl,
    ?_, ?_, ?_, ?_, ?_, ?_, ?_, ?_, ?_, ?_, ?_⟩
  · intro e
    cases e with
    | CountParseError pe => intro hcontra; exact mainmod.EvalError.noConfusion hcontra
    | DBusConnectionError ze => intro hcontra; exact mainmod.EvalError.noConfusion hcontra
  · rw [trRes_execute a code]
    exact trRes_ne_unknown id (a.execute code)
  · rw [trRes_screen_count a]
    exact trRes_ne_unknown id a.get_screen_count
  · rw [trRes_screens a]
    exact trRes_ne_unknown (List.map trScreen) a.get_screens
  · rw [trRes_tag_count s]
    exact trRes_ne_unknown id s.get_tag_count
  · rw [trRes_tags s]
    exact trRes_ne_unknown (List.map trTag) s.get_tags
  · rw [trRes_tag_name t]
    exact trRes_ne_unknown id t.get_name
  · rw [trRes_clients t]
    exact trRes_ne_unknown (List.map trClient) t.get_clients
  · rw [trRes_client_name cl]
    exact trRes_ne_unknown id cl.get_name
  · rw [trRes_client_window cl]
    exact trRes_ne_unknown id cl.get_x_window_id
  · rw [trRes_client_class cl]
    exact trRes_ne_unknown id cl.get_class
